import Mathlib

/-!
Verification of the Bennu chirality / spectral-map scripts.

A shallow embedding of the two Python scripts of this repository:

* `chirality_phase1`: builds a fixed Bennu + Earth amino-acid chirality
  table (`build_dummy_tables`) and renders a grouped L/D bar chart per
  molecule (`plot_chirality_grouped`).
* `spectra_phase2`: reads a FITS table, masks sentinel values, and saves
  a scatter map (`plot_bennu_map`).

Floating-point literals in the scripts are exact decimals, so they are
embedded as rationals (`ℚ`).  Nullable cells (`None` / `NaN` / `pd.NA`)
become `Option ℚ`.  The side-effecting renderers are embedded as pure
functions returning a description of what they print / draw / save, with
one constructor per exit path of the Python function.
-/

namespace Bennu

/-! ## String helpers

The scripts use `str.replace` (for the legend labels) and `str.split()`
(for the output-file name).  Lean's own `String.replace` and
`String.split` are defined by well-founded recursion over `String.Pos`,
which the kernel cannot evaluate, so the same functions are written here
by structural recursion over the character list (with an explicit fuel
argument for `replace`, bounded by the string length). -/

/-- Replace every occurrence of `pat` in the character list by the empty
string, scanning left to right; `fuel` bounds the recursion and is
instantiated with the length of the list. -/
def replaceAllAux (pat : List Char) : Nat → List Char → List Char
  | _, [] => []
  | 0, l => l
  | n + 1, c :: cs =>
    if pat ≠ [] ∧ pat.isPrefixOf (c :: cs) then
      replaceAllAux pat n (cs.drop (pat.length - 1))
    else c :: replaceAllAux pat n cs

/-- Embedding of Python `s.replace(pat, "")` (the only form the scripts
use: `hand.replace("_fraction", "")`). -/
def strReplaceEmpty (s pat : String) : String :=
  String.mk (replaceAllAux pat.data s.data.length s.data)

/-- Embedding of Python `title.split()[0]`: drop leading spaces, then
take the first run of non-space characters.  (On an all-space title the
Python raises `IndexError`; that input never occurs here and is mapped
to `""`.) -/
def firstWord (t : String) : String :=
  String.mk ((t.data.dropWhile (fun c => c = ' ')).takeWhile (fun c => c ≠ ' '))

/-- Embedding of `pandas.Series.unique()` / `melted["environment"].unique()`:
the distinct elements in order of first occurrence.  `seen` accumulates
the elements already emitted. -/
def uniqueFirstAux (seen : List String) : List String → List String
  | [] => []
  | x :: xs =>
    if x ∈ seen then uniqueFirstAux seen xs
    else x :: uniqueFirstAux (x :: seen) xs

/-- Distinct elements of a list, in order of first occurrence. -/
def uniqueFirst (l : List String) : List String := uniqueFirstAux [] l

/-! ## Phase 1: the chirality table (`chirality_phase1`) -/

/-- One row of the combined chirality table, with the column ordering the
script enforces at the end of `build_dummy_tables`:
`molecule, environment, L_fraction, D_fraction, total_abundance_ppb, notes`.
A `None`/`NaN`/`pd.NA` cell is `none`. -/
structure ChiralityRecord where
  molecule : String
  environment : String
  L_fraction : Option ℚ
  D_fraction : Option ℚ
  total_abundance_ppb : Option ℚ
  notes : String
  deriving DecidableEq, Repr

/-- The Bennu block of `build_dummy_tables`: the four `bennu_rows`
tuples, with the `environment` column set to `"Bennu"`. -/
def df_bennu : List ChiralityRecord :=
  [ { molecule := "Alanine", environment := "Bennu",
      L_fraction := some 0.49, D_fraction := some 0.51,
      total_abundance_ppb := some 35.0,
      notes := "near-racemic; chiral" },
    { molecule := "β-Alanine", environment := "Bennu",
      L_fraction := some 0.52, D_fraction := some 0.48,
      total_abundance_ppb := some 15.0,
      notes := "near-racemic; chiral" },
    { molecule := "Isovaline", environment := "Bennu",
      L_fraction := some 0.50, D_fraction := some 0.50,
      total_abundance_ppb := some 8.0,
      notes := "classic meteoritic amino acid; chiral" },
    { molecule := "Glycine", environment := "Bennu",
      L_fraction := none, D_fraction := none,
      total_abundance_ppb := some 120.0,
      notes := "achiral; abundance-only in this toy table" } ]

/-- The Earth block of `build_dummy_tables`: the four `earth_rows`
tuples, with `environment := "Earth"` and the whole
`total_abundance_ppb` column set to `pd.NA`. -/
def df_earth : List ChiralityRecord :=
  [ { molecule := "Alanine", environment := "Earth",
      L_fraction := some 1.00, D_fraction := some 0.00,
      total_abundance_ppb := none,
      notes := "proteinogenic; homochiral L in biology" },
    { molecule := "β-Alanine", environment := "Earth",
      L_fraction := some 1.00, D_fraction := some 0.00,
      total_abundance_ppb := none,
      notes := "treated as 'all L' control here" },
    { molecule := "Isovaline", environment := "Earth",
      L_fraction := some 1.00, D_fraction := some 0.00,
      total_abundance_ppb := none,
      notes := "hypothetical Earth-life use case; all L" },
    { molecule := "Glycine", environment := "Earth",
      L_fraction := none, D_fraction := none,
      total_abundance_ppb := none,
      notes := "achiral; abundance-only control" } ]

/-- Embedding of `build_dummy_tables`: `pd.concat([df_bennu, df_earth])`
followed by a column reordering, which is the identity on the record
embedding. -/
def build_dummy_tables : List ChiralityRecord := df_bennu ++ df_earth

/-- One row of the `melt`ed frame inside `plot_chirality_grouped`:
`id_vars=["environment"]`, `var_name="handedness"`,
`value_name="fraction"`. -/
structure MeltedRow where
  environment : String
  handedness : String
  fraction : Option ℚ
  deriving DecidableEq, Repr

/-- One `ax.bar(...)` call of `plot_chirality_grouped`: the bar center
positions, heights, common width and legend label.  A height is `none`
when the looked-up cell would be undefined in the Python (never the case
on rendered inputs). -/
structure BarCall where
  positions : List ℚ
  heights : List (Option ℚ)
  width : ℚ
  label : String
  deriving DecidableEq, Repr

/-- The figure assembled by `plot_chirality_grouped` when it does not
skip: the two `ax.bar` calls plus the axis/label configuration. -/
structure GroupedPlot where
  barCalls : List BarCall
  xticks : List ℕ
  xticklabels : List String
  ylim : ℚ × ℚ
  ylabel : String
  title : String
  deriving DecidableEq, Repr

/-- Outcome of `plot_chirality_grouped`: either the early return with the
`[skip]` message printed, or a rendered figure. -/
inductive RenderResult where
  | skip (message : String)
  | plotted (plot : GroupedPlot)
  deriving DecidableEq, Repr

/-- The `subset` selection of `plot_chirality_grouped`: rows whose
molecule matches and whose `L_fraction` and `D_fraction` are both
non-null. -/
def chiralitySubset (df : List ChiralityRecord) (molecule_name : String) :
    List ChiralityRecord :=
  df.filter fun r =>
    r.molecule == molecule_name && r.L_fraction.isSome && r.D_fraction.isSome

/-- The `melt` step: one row per (environment, handedness) with the
fraction value; pandas stacks all `L_fraction` rows before all
`D_fraction` rows. -/
def meltSubset (subset : List ChiralityRecord) : List MeltedRow :=
  (subset.map fun r => ⟨r.environment, "L_fraction", r.L_fraction⟩)
    ++ (subset.map fun r => ⟨r.environment, "D_fraction", r.D_fraction⟩)

/-- The bar width `width = 0.35` of `plot_chirality_grouped`. -/
def bar_width : ℚ := 0.35

/-- The `vals` list comprehension: for each environment, the `fraction`
cell of the first melted row matching that environment and handedness
(`.iloc[0]`; `none` if no such row exists, where Python would raise). -/
def barVals (melted : List MeltedRow) (envs : List String) (hand : String) :
    List (Option ℚ) :=
  envs.map fun env =>
    ((melted.filter fun m => m.environment == env && m.handedness == hand).head?).bind
      MeltedRow.fraction

/-- The `ax.bar` call for value variable `hand` at enumeration index `i`:
offset `(i - 0.5) * width` from the category centers `range envs.length`,
label `hand.replace("_fraction", "")`. -/
def mkBarCall (melted : List MeltedRow) (envs : List String) (i : ℕ)
    (hand : String) : BarCall :=
  { positions := (List.range envs.length).map fun (xi : ℕ) =>
      (xi : ℚ) + ((i : ℚ) - 0.5) * bar_width
    heights := barVals melted envs hand
    width := bar_width
    label := strReplaceEmpty hand "_fraction" }

/-- The non-skip branch of `plot_chirality_grouped`: melt the subset,
compute the environments in order of first occurrence, and assemble the
figure (the two enumerated `ax.bar` calls, ticks, `ylim(0, 1.05)`,
labels, title). -/
def buildGroupedPlot (subset : List ChiralityRecord)
    (molecule_name : String) : GroupedPlot :=
  let melted := meltSubset subset
  let envs := uniqueFirst (melted.map MeltedRow.environment)
  { barCalls := (List.enum ["L_fraction", "D_fraction"]).map fun p =>
      mkBarCall melted envs p.1 p.2
    xticks := List.range envs.length
    xticklabels := envs
    ylim := (0, 1.05)
    ylabel := "Fraction"
    title := "Chirality comparison: " ++ molecule_name }

/-- Embedding of `plot_chirality_grouped(df, molecule_name)`: select the
subset, print-and-return on empty, otherwise build the grouped figure. -/
def plot_chirality_grouped (df : List ChiralityRecord)
    (molecule_name : String) : RenderResult :=
  let subset := chiralitySubset df molecule_name
  if subset.isEmpty then
    RenderResult.skip ("[skip] " ++ molecule_name ++ ": no chirality data to plot.")
  else
    RenderResult.plotted (buildGroupedPlot subset molecule_name)

/-! ## Phase 2: the spectral map (`spectra_phase2`) -/

/-- The data section of one FITS HDU: the three columns `LATITUDE`,
`LONGITUDE`, `VALUE` read by `plot_bennu_map`. -/
structure SpectralData where
  latitude : List ℚ
  longitude : List ℚ
  value : List ℚ
  deriving DecidableEq, Repr

/-- The configured data directory, `DATA_DIR = Path("data/pds")`; path
joining appends a separator. -/
def DATA_DIR : String := "data/pds/"

/-- The boolean mask `valid_mask = val > -9000`. -/
def valid_mask (val : List ℚ) : List Bool :=
  val.map fun v => decide (v > -9000)

/-- Numpy boolean-mask indexing `arr[mask]`: keep the entries whose mask
bit is `true`. -/
def maskApply {α : Type} (arr : List α) (mask : List Bool) : List α :=
  ((arr.zip mask).filter fun p => p.2).map fun p => p.1

/-- Everything `plot_bennu_map` reports and saves on its successful exit
path: the printed counts and range, the cleaned arrays fed to
`plt.scatter`, the colour map, and the saved file name
`map_<firstWordOfTitle>.png`. -/
structure SavedMap where
  original_count : ℕ
  valid_count : ℕ
  min_val : ℚ
  max_val : ℚ
  lon_clean : List ℚ
  lat_clean : List ℚ
  val_clean : List ℚ
  cmap : String
  output_filename : String
  deriving DecidableEq, Repr

/-- Outcome of `plot_bennu_map`, one constructor per exit path:
missing file (diagnostic printed, early return), missing HDU 1 (silent
early return from the `except IndexError` handler), uncaught
`ValueError` from `val_clean.min()` on an empty array, or a saved map. -/
inductive MapResult where
  | fileNotFound (diagnostic : String)
  | missingDataSection
  | emptyDataError
  | saved (m : SavedMap)
  deriving DecidableEq, Repr

/-- Embedding of `plot_bennu_map(filename, title, cmap)`.  The
filesystem is passed explicitly as a partial map from paths to FITS HDU
lists. -/
def plot_bennu_map (fs : String → Option (List SpectralData))
    (filename title cmap : String) : MapResult :=
  let filepath := DATA_DIR ++ filename
  match fs filepath with
  | none => MapResult.fileNotFound ("❌ File not found: " ++ filename)
  | some hdul =>
    match hdul[1]? with
    | none => MapResult.missingDataSection
    | some data =>
      let val := data.value
      let mask := valid_mask val
      let lat_clean := maskApply data.latitude mask
      let lon_clean := maskApply data.longitude mask
      let val_clean := maskApply val mask
      match val_clean.min?, val_clean.max? with
      | some mn, some mx =>
        MapResult.saved
          { original_count := val.length
            valid_count := val_clean.length
            min_val := mn
            max_val := mx
            lon_clean := lon_clean
            lat_clean := lat_clean
            val_clean := val_clean
            cmap := cmap
            output_filename := "map_" ++ firstWord title ++ ".png" }
      | _, _ => MapResult.emptyDataError

/-! ## Derived definitions used by the specification's test points -/

/-- Filtering the combined table by molecule and environment, as in the
round-trip test points of the specification. -/
def filterMolEnv (df : List ChiralityRecord) (mol env : String) :
    List ChiralityRecord :=
  df.filter fun r => r.molecule == mol && r.environment == env

/-- The indices selected by the valid mask (where the mask bit is
`true`). -/
def maskSelectedIndices (val : List ℚ) : List ℕ :=
  (((valid_mask val).enum).filter fun p => p.2).map fun p => p.1

/-- The value array of the spec's sentinel-filtering test point. -/
def sample_values : List ℚ := [-9999, -9999, 2.5, 3.1, -9999]

/-- A one-file filesystem whose FITS table holds `sample_values` (HDU 0
is the primary header with no table, HDU 1 the data section). -/
def sampleFS : String → Option (List SpectralData) := fun _ =>
  some [⟨[], [], []⟩, ⟨[10, 11, 12, 13, 14], [20, 21, 22, 23, 24], sample_values⟩]

/-- A filesystem whose FITS table holds only sentinel values. -/
def sentinelFS : String → Option (List SpectralData) := fun _ =>
  some [⟨[], [], []⟩, ⟨[10, 11], [20, 21], [-9999, -9999]⟩]

/-- The figure `plot_chirality_grouped` produces for Alanine on the
dummy tables, written out literally. -/
def alaninePlot : GroupedPlot :=
  { barCalls :=
      [ { positions := [-(7/40 : ℚ), 33/40], heights := [some 0.49, some 1],
          width := 0.35, label := "L" },
        { positions := [(7/40 : ℚ), 47/40], heights := [some 0.51, some 0],
          width := 0.35, label := "D" } ]
    xticks := [0, 1]
    xticklabels := ["Bennu", "Earth"]
    ylim := (0, 1.05)
    ylabel := "Fraction"
    title := "Chirality comparison: Alanine" }

/-! ## Shared lemmas -/

theorem mem_uniqueFirstAux (a : String) (seen : List String) (l : List String) :
    a ∈ uniqueFirstAux seen l ↔ a ∈ l ∧ a ∉ seen := by
  induction l generalizing seen with
  | nil => simp [uniqueFirstAux]
  | cons x xs ih =>
    simp only [uniqueFirstAux]
    by_cases hx : x ∈ seen
    · rw [if_pos hx]
      simp only [ih, List.mem_cons]
      constructor
      · exact fun h => ⟨Or.inr h.1, h.2⟩
      · rintro ⟨h1 | h1, h2⟩
        · subst h1; exact absurd hx h2
        · exact ⟨h1, h2⟩
    · rw [if_neg hx]
      simp only [ih, List.mem_cons, not_or]
      constructor
      · rintro (h | ⟨h1, h2, h3⟩)
        · subst h; exact ⟨Or.inl rfl, hx⟩
        · exact ⟨Or.inr h1, h3⟩
      · rintro ⟨h1 | h1, h2⟩
        · exact Or.inl h1
        · by_cases hax : a = x
          · exact Or.inl hax
          · exact Or.inr ⟨h1, hax, h2⟩

theorem mem_uniqueFirst (a : String) (l : List String) :
    a ∈ uniqueFirst l ↔ a ∈ l := by
  simpa using mem_uniqueFirstAux a [] l

theorem map_environment_meltSubset (s : List ChiralityRecord) :
    (meltSubset s).map MeltedRow.environment =
      s.map ChiralityRecord.environment ++ s.map ChiralityRecord.environment := by
  simp only [meltSubset, List.map_append, List.map_map]
  rfl

theorem maskApply_map {α : Type} (l : List α) (p : α → Bool) :
    maskApply l (l.map p) = l.filter p := by
  induction l with
  | nil => rfl
  | cons a t ih =>
    by_cases hp : p a <;>
      simp [maskApply, hp, List.filter_cons] <;>
      simpa [maskApply] using ih

theorem length_positions_mkBarCall (melted : List MeltedRow)
    (envs : List String) (i : ℕ) (hand : String) :
    (mkBarCall melted envs i hand).positions.length = envs.length := by
  rw [mkBarCall]
  rw [List.length_map, List.length_range]

theorem length_heights_mkBarCall (melted : List MeltedRow)
    (envs : List String) (i : ℕ) (hand : String) :
    (mkBarCall melted envs i hand).heights.length = envs.length := by
  rw [mkBarCall]
  rw [show (BarCall.mk ((List.range envs.length).map fun xi =>
      (xi : ℚ) + ((i : ℚ) - 0.5) * bar_width) (barVals melted envs hand)
      bar_width (strReplaceEmpty hand "_fraction")).heights =
      barVals melted envs hand from rfl]
  rw [barVals, List.length_map]

theorem plot_nonempty_eq (df : List ChiralityRecord) (name : String)
    (h : (chiralitySubset df name).isEmpty = false) :
    plot_chirality_grouped df name =
      RenderResult.plotted (buildGroupedPlot (chiralitySubset df name) name) := by
  simp [plot_chirality_grouped, h]

/-! ## The claims -/

/-- C1: whenever no record matches the molecule with both `L_fraction`
and `D_fraction` present, `plot_chirality_grouped` returns the skip
outcome whose diagnostic message names the molecule (no figure, no
exception); in particular for `"Glycine"` on the Table Builder's output
the selection is empty and the renderer reports the skip. -/
theorem skip_on_empty_selection :
    (∀ (df : List ChiralityRecord) (molecule_name : String),
      chiralitySubset df molecule_name = [] →
      plot_chirality_grouped df molecule_name =
        RenderResult.skip
          ("[skip] " ++ molecule_name ++ ": no chirality data to plot.")) ∧
    chiralitySubset build_dummy_tables "Glycine" = [] ∧
    plot_chirality_grouped build_dummy_tables "Glycine" =
      RenderResult.skip "[skip] Glycine: no chirality data to plot." := by
  refine ⟨fun df molecule_name h => ?_, by decide, by decide⟩
  simp [plot_chirality_grouped, h]

theorem skip_on_empty_selection_witness :
    plot_chirality_grouped [] "Valine" =
      RenderResult.skip ("[skip] " ++ "Valine" ++ ": no chirality data to plot.") :=
  skip_on_empty_selection.1 [] "Valine" rfl

/-- C2: filtering the Table Builder's output by Alanine × Bennu yields
exactly one record with `L_fraction = 0.49`, `D_fraction = 0.51`,
`total_abundance_ppb = 35.0`; by Alanine × Earth exactly one record with
`L_fraction = 1.00`, `D_fraction = 0.00`, `total_abundance_ppb`
absent. -/
theorem alanine_roundtrip_filter :
    (filterMolEnv build_dummy_tables "Alanine" "Bennu").map
        (fun r => (r.L_fraction, r.D_fraction, r.total_abundance_ppb)) =
      [(some 0.49, some 0.51, some 35.0)] ∧
    (filterMolEnv build_dummy_tables "Alanine" "Earth").map
        (fun r => (r.L_fraction, r.D_fraction, r.total_abundance_ppb)) =
      [(some 1.00, some 0.00, none)] := by
  with_unfolding_all decide

/-- C3: in the Table Builder's output `L_fraction` and `D_fraction` are
present or absent together; the Glycine records (existing for both
Bennu and Earth) carry both absent, and every other molecule's records
carry both present. -/
theorem lfrac_dfrac_pair_invariant :
    (∀ r ∈ build_dummy_tables, r.L_fraction.isSome = r.D_fraction.isSome) ∧
    (∀ r ∈ build_dummy_tables, r.molecule = "Glycine" →
      r.L_fraction = none ∧ r.D_fraction = none) ∧
    (∀ r ∈ build_dummy_tables, r.molecule ≠ "Glycine" →
      r.L_fraction.isSome = true ∧ r.D_fraction.isSome = true) ∧
    (∃ r ∈ build_dummy_tables,
      r.molecule = "Glycine" ∧ r.environment = "Bennu") ∧
    (∃ r ∈ build_dummy_tables,
      r.molecule = "Glycine" ∧ r.environment = "Earth") := by
  with_unfolding_all decide

theorem lfrac_dfrac_pair_invariant_witness :
    (ChiralityRecord.mk "Glycine" "Bennu" none none (some 120.0)
        "achiral; abundance-only in this toy table").L_fraction.isSome =
      (ChiralityRecord.mk "Glycine" "Bennu" none none (some 120.0)
        "achiral; abundance-only in this toy table").D_fraction.isSome :=
  lfrac_dfrac_pair_invariant.1
    (ChiralityRecord.mk "Glycine" "Bennu" none none (some 120.0)
      "achiral; abundance-only in this toy table")
    (by with_unfolding_all decide)

/-- C4: in the Table Builder's output `total_abundance_ppb` is a present
non-negative value on every Bennu record and absent on every Earth
record. -/
theorem abundance_env_policy :
    ∀ r ∈ build_dummy_tables,
      (r.environment = "Bennu" →
        r.total_abundance_ppb.isSome = true ∧
        (0 : ℚ) ≤ r.total_abundance_ppb.getD 0) ∧
      (r.environment = "Earth" → r.total_abundance_ppb = none) := by
  with_unfolding_all decide

theorem abundance_env_policy_witness :
    (ChiralityRecord.mk "Alanine" "Bennu" (some 0.49) (some 0.51) (some 35.0)
        "near-racemic; chiral").total_abundance_ppb.isSome = true ∧
    (0 : ℚ) ≤ (ChiralityRecord.mk "Alanine" "Bennu" (some 0.49) (some 0.51)
        (some 35.0) "near-racemic; chiral").total_abundance_ppb.getD 0 :=
  (abundance_env_policy
    (ChiralityRecord.mk "Alanine" "Bennu" (some 0.49) (some 0.51) (some 35.0)
      "near-racemic; chiral")
    (by with_unfolding_all decide)).1 rfl

/-- C5: whenever `plot_chirality_grouped` renders, it draws exactly an L
bar call and a D bar call, both of width `0.35`, the L bars at the
category positions minus `0.5 × 0.35` and the D bars at the category
positions plus `0.5 × 0.35`; the y-limits are `[0, 1.05]`, the legend
labels are exactly `"L"` and `"D"`, and the title contains the molecule
name. -/
theorem plot_geometry_spec :
    ∀ (df : List ChiralityRecord) (name : String) (p : GroupedPlot),
      plot_chirality_grouped df name = RenderResult.plotted p →
      ∃ Lc Dc : BarCall,
        p.barCalls = [Lc, Dc] ∧
        Lc.label = "L" ∧ Dc.label = "D" ∧
        Lc.width = 0.35 ∧ Dc.width = 0.35 ∧
        Lc.positions =
          (List.range p.xticklabels.length).map
            (fun (xi : ℕ) => (xi : ℚ) - 0.5 * 0.35) ∧
        Dc.positions =
          (List.range p.xticklabels.length).map
            (fun (xi : ℕ) => (xi : ℚ) + 0.5 * 0.35) ∧
        p.ylim = (0, 1.05) ∧
        ∃ pre, p.title = pre ++ name := by
  intro df name p hp
  by_cases h : (chiralitySubset df name).isEmpty
  · simp [plot_chirality_grouped, h] at hp
  · rw [plot_nonempty_eq df name (by simpa using h)] at hp
    injection hp with hp
    subst hp
    refine ⟨_, _, rfl, ?_, ?_, rfl, rfl, ?_, ?_, rfl,
      "Chirality comparison: ", rfl⟩
    · simp only [mkBarCall]
      decide
    · simp only [mkBarCall]
      decide
    · simp only [mkBarCall, bar_width, buildGroupedPlot]
      congr 1
      funext xi
      push_cast
      ring
    · simp only [mkBarCall, bar_width, buildGroupedPlot]
      congr 1
      funext xi
      push_cast
      ring

theorem plot_geometry_spec_witness :
    ∃ Lc Dc : BarCall,
      alaninePlot.barCalls = [Lc, Dc] ∧
      Lc.label = "L" ∧ Dc.label = "D" ∧
      Lc.width = 0.35 ∧ Dc.width = 0.35 ∧
      Lc.positions =
        (List.range alaninePlot.xticklabels.length).map
          (fun (xi : ℕ) => (xi : ℚ) - 0.5 * 0.35) ∧
      Dc.positions =
        (List.range alaninePlot.xticklabels.length).map
          (fun (xi : ℕ) => (xi : ℚ) + 0.5 * 0.35) ∧
      alaninePlot.ylim = (0, 1.05) ∧
      ∃ pre, alaninePlot.title = pre ++ "Alanine" :=
  plot_geometry_spec build_dummy_tables "Alanine" alaninePlot
    (by with_unfolding_all decide)

/-- C6: for every molecule present in the data all of whose records
carry both `L_fraction` and `D_fraction`, the renderer produces a figure
with exactly two bar calls, each drawing one bar per rendered
environment, and the rendered environments are exactly the distinct
environments present for that molecule in the input. -/
theorem two_bars_per_environment :
    ∀ (df : List ChiralityRecord) (name : String),
      (∃ r ∈ df, r.molecule = name) →
      (∀ r ∈ df, r.molecule = name →
        r.L_fraction.isSome = true ∧ r.D_fraction.isSome = true) →
      ∃ p : GroupedPlot,
        plot_chirality_grouped df name = RenderResult.plotted p ∧
        p.barCalls.length = 2 ∧
        (∀ c ∈ p.barCalls,
          c.positions.length = p.xticklabels.length ∧
          c.heights.length = p.xticklabels.length) ∧
        (∀ e, e ∈ p.xticklabels ↔
          e ∈ (df.filter fun r => r.molecule == name).map
            ChiralityRecord.environment) := by
  intro df name hex hall
  obtain ⟨r, hr, hmol⟩ := hex
  have hsub : chiralitySubset df name = df.filter fun x => x.molecule == name := by
    unfold chiralitySubset
    apply List.filter_congr
    intro a ha
    by_cases hm : a.molecule = name
    · have h2 := hall a ha hm
      simp [hm, h2.1, h2.2]
    · have hb : (a.molecule == name) = false := by
        simpa using hm
      simp [hb]
  have hrmem : r ∈ chiralitySubset df name := by
    rw [hsub]
    exact List.mem_filter.2 ⟨hr, by simpa using hmol⟩
  have hne : (chiralitySubset df name).isEmpty = false := by
    rcases hcs : chiralitySubset df name with _ | ⟨a, l⟩
    · rw [hcs] at hrmem
      cases hrmem
    · rfl
  refine ⟨buildGroupedPlot (chiralitySubset df name) name,
    plot_nonempty_eq df name hne, rfl, ?_, ?_⟩
  · intro c hc
    have hc2 : c = mkBarCall (meltSubset (chiralitySubset df name))
        (uniqueFirst ((meltSubset (chiralitySubset df name)).map
          MeltedRow.environment)) 0 "L_fraction" ∨
        c = mkBarCall (meltSubset (chiralitySubset df name))
        (uniqueFirst ((meltSubset (chiralitySubset df name)).map
          MeltedRow.environment)) 1 "D_fraction" := by
      simpa [buildGroupedPlot, List.enum] using hc
    have hxt : (buildGroupedPlot (chiralitySubset df name) name).xticklabels =
        uniqueFirst ((meltSubset (chiralitySubset df name)).map
          MeltedRow.environment) := rfl
    rcases hc2 with hc2 | hc2 <;> subst hc2 <;>
      exact ⟨by rw [hxt, length_positions_mkBarCall],
             by rw [hxt, length_heights_mkBarCall]⟩
  · intro e
    have hx : (buildGroupedPlot (chiralitySubset df name) name).xticklabels =
        uniqueFirst ((meltSubset (chiralitySubset df name)).map
          MeltedRow.environment) := rfl
    rw [hx, mem_uniqueFirst, map_environment_meltSubset, hsub,
      List.mem_append, or_self]

theorem two_bars_per_environment_witness :
    ∃ p : GroupedPlot,
      plot_chirality_grouped build_dummy_tables "Alanine" =
        RenderResult.plotted p ∧
      p.barCalls.length = 2 ∧
      (∀ c ∈ p.barCalls,
        c.positions.length = p.xticklabels.length ∧
        c.heights.length = p.xticklabels.length) ∧
      (∀ e, e ∈ p.xticklabels ↔
        e ∈ (build_dummy_tables.filter fun r => r.molecule == "Alanine").map
          ChiralityRecord.environment) :=
  two_bars_per_environment build_dummy_tables "Alanine"
    ⟨ChiralityRecord.mk "Alanine" "Bennu" (some 0.49) (some 0.51) (some 35.0)
      "near-racemic; chiral", by with_unfolding_all decide, rfl⟩
    (by with_unfolding_all decide)

/-- C7: the sentinel filter retains exactly the values strictly greater
than `-9000`; on the spec's sample array the mask selects exactly
indices 2 and 3, and the pipeline reports original count 5, valid
count 2, minimum 2.5 and maximum 3.1 (and renders only the retained
data). -/
theorem sentinel_filter_spec :
    (∀ (val : List ℚ) (v : ℚ),
      v ∈ maskApply val (valid_mask val) ↔ v ∈ val ∧ v > -9000) ∧
    maskSelectedIndices sample_values = [2, 3] ∧
    sample_values.length = 5 ∧
    (maskApply sample_values (valid_mask sample_values)).length = 2 ∧
    plot_bennu_map sampleFS "sample.fits" "Sample Map" "magma" =
      MapResult.saved
        { original_count := 5, valid_count := 2, min_val := 2.5, max_val := 3.1,
          lon_clean := [22, 23], lat_clean := [12, 13], val_clean := [2.5, 3.1],
          cmap := "magma", output_filename := "map_Sample.png" } := by
  refine ⟨?_, ?_, ?_, ?_, ?_⟩
  · intro val v
    rw [valid_mask, maskApply_map, List.mem_filter]
    simp
  · with_unfolding_all decide
  · with_unfolding_all decide
  · with_unfolding_all decide
  · with_unfolding_all decide

theorem sentinel_filter_spec_witness :
    2.5 ∈ maskApply sample_values (valid_mask sample_values) ↔
      2.5 ∈ sample_values ∧ (2.5 : ℚ) > -9000 :=
  sentinel_filter_spec.1 sample_values 2.5

/-- C8: for every filesystem with no file at the resolved path,
`plot_bennu_map` returns the diagnostic-and-return outcome naming the
file, producing no image and raising no error. -/
theorem missing_file_diagnostic :
    ∀ (fs : String → Option (List SpectralData)) (filename title cmap : String),
      fs (DATA_DIR ++ filename) = none →
      plot_bennu_map fs filename title cmap =
        MapResult.fileNotFound ("❌ File not found: " ++ filename) := by
  intro fs filename title cmap h
  simp [plot_bennu_map, h]

theorem missing_file_diagnostic_witness :
    plot_bennu_map (fun _ => none) "nofile.fits" "Organic Carbon (3.4 micron)"
        "plasma" =
      MapResult.fileNotFound ("❌ File not found: " ++ "nofile.fits") :=
  missing_file_diagnostic (fun _ => none) "nofile.fits"
    "Organic Carbon (3.4 micron)" "plasma" rfl

/-- C9: for every file that exists but has no HDU at index 1,
`plot_bennu_map` returns silently (its `except IndexError` handler):
no diagnostic, no error, no image. -/
theorem missing_section_silent :
    ∀ (fs : String → Option (List SpectralData)) (filename title cmap : String)
      (hdul : List SpectralData),
      fs (DATA_DIR ++ filename) = some hdul →
      hdul[1]? = none →
      plot_bennu_map fs filename title cmap = MapResult.missingDataSection := by
  intro fs filename title cmap hdul h1 h2
  simp [plot_bennu_map, h1, h2]

theorem missing_section_silent_witness :
    plot_bennu_map (fun _ => some []) "empty.fits" "Hydration (2.7 micron)"
        "viridis" =
      MapResult.missingDataSection :=
  missing_section_silent (fun _ => some []) "empty.fits"
    "Hydration (2.7 micron)" "viridis" [] rfl rfl

/-- C10 (implicit): when the file exists with a data section but every
value is `≤ -9000`, the retained array is empty and `plot_bennu_map`
hits the uncaught error from taking the minimum of an empty array; it
completes without error exactly when some value exceeds `-9000`. -/
theorem all_sentinel_raises :
    (∀ (fs : String → Option (List SpectralData)) (filename title cmap : String)
        (hdul : List SpectralData) (data : SpectralData),
      fs (DATA_DIR ++ filename) = some hdul →
      hdul[1]? = some data →
      (∀ v ∈ data.value, v ≤ -9000) →
      plot_bennu_map fs filename title cmap = MapResult.emptyDataError) ∧
    (∀ (fs : String → Option (List SpectralData)) (filename title cmap : String)
        (hdul : List SpectralData) (data : SpectralData),
      fs (DATA_DIR ++ filename) = some hdul →
      hdul[1]? = some data →
      (∃ v ∈ data.value, -9000 < v) →
      ∃ m : SavedMap,
        plot_bennu_map fs filename title cmap = MapResult.saved m) := by
  constructor
  · intro fs filename title cmap hdul data h1 h2 hall
    have hclean : maskApply data.value (valid_mask data.value) = [] := by
      rw [valid_mask, maskApply_map, List.filter_eq_nil_iff]
      intro a ha
      simpa using not_lt.2 (hall a ha)
    simp [plot_bennu_map, h1, h2, hclean]
  · intro fs filename title cmap hdul data h1 h2 hex
    obtain ⟨v, hv, hgt⟩ := hex
    have hne : maskApply data.value (valid_mask data.value) ≠ [] := by
      rw [valid_mask, maskApply_map]
      intro hnil
      have hvmem : v ∈ List.filter (fun w => decide (w > -9000)) data.value :=
        List.mem_filter.2 ⟨hv, by simpa using hgt⟩
      rw [hnil] at hvmem
      cases hvmem
    obtain ⟨mn, hmn⟩ : ∃ mn,
        (maskApply data.value (valid_mask data.value)).min? = some mn := by
      cases hm : (maskApply data.value (valid_mask data.value)).min? with
      | none => exact absurd (List.min?_eq_none_iff.1 hm) hne
      | some mn => exact ⟨mn, rfl⟩
    obtain ⟨mx, hmx⟩ : ∃ mx,
        (maskApply data.value (valid_mask data.value)).max? = some mx := by
      cases hm : (maskApply data.value (valid_mask data.value)).max? with
      | none => exact absurd (List.max?_eq_none_iff.1 hm) hne
      | some mx => exact ⟨mx, rfl⟩
    refine ⟨{ original_count := data.value.length,
              valid_count := (maskApply data.value (valid_mask data.value)).length,
              min_val := mn, max_val := mx,
              lon_clean := maskApply data.longitude (valid_mask data.value),
              lat_clean := maskApply data.latitude (valid_mask data.value),
              val_clean := maskApply data.value (valid_mask data.value),
              cmap := cmap,
              output_filename := "map_" ++ firstWord title ++ ".png" }, ?_⟩
    simp [plot_bennu_map, h1, h2, hmn, hmx]

theorem all_sentinel_raises_witness :
    plot_bennu_map sentinelFS "allbad.fits" "All Sentinel" "magma" =
      MapResult.emptyDataError ∧
    (∃ m : SavedMap,
      plot_bennu_map sampleFS "sample.fits" "Sample Map" "magma" =
        MapResult.saved m) :=
  ⟨all_sentinel_raises.1 sentinelFS "allbad.fits" "All Sentinel" "magma" _ _
      rfl rfl (by with_unfolding_all decide),
   all_sentinel_raises.2 sampleFS "sample.fits" "Sample Map" "magma" _ _
      rfl rfl (by with_unfolding_all decide)⟩

end Bennu
